import Mathlib

/-!
Verification of the RISC-V 64-bit instruction-set simulator core, against its
natural-language specification.  The definitions below are a shallow embedding
of the C sources: `riscv64.c` (CPU state, register file, registry and the
fetch/decode/execute step), `rv64i_instr.h` / `rv64m_instr.h` (the instruction
descriptors and executor bodies) and the `rsk_cpu_run` entry point of the
kernel API facade.  Machine integers (`dword` = `uint64_t`, `word` =
`uint32_t`, `byte` = `uint8_t`, `sdword` = `int64_t`) are modelled as `Nat`
with explicit reduction modulo `2^w`, and as `Int` where the C code computes
on signed values.
-/

namespace RiscvSim

/-- Reduce to a `uint64_t` value (C conversion of an unsigned 64-bit result). -/
def u64 (n : Nat) : Nat := n % 2 ^ 64

/-- C conversion of a signed (Int) expression to `dword` (`uint64_t`). -/
def u64ofInt (x : Int) : Nat := (x % (2 ^ 64 : Int)).toNat

/-- C conversion of a signed (Int) expression to `unsigned int` (`uint32_t`). -/
def u32ofInt (x : Int) : Nat := (x % (2 ^ 32 : Int)).toNat

/-- C conversion of a signed (Int) expression to `byte` (`uint8_t`). -/
def u8ofInt (x : Int) : Nat := (x % (2 ^ 8 : Int)).toNat

/-- Reinterpret a `uint64_t` bit pattern as `int64_t` (the C cast `(sdword) x`). -/
def tos64 (n : Nat) : Int :=
  if n % 2 ^ 64 < 2 ^ 63 then ((n % 2 ^ 64 : Nat) : Int)
  else ((n % 2 ^ 64 : Nat) : Int) - 2 ^ 64

/-- C left shift of a `uint64_t`, wrapping modulo `2^64`. -/
def shl64 (n k : Nat) : Nat := (n <<< k) % 2 ^ 64

/-- C arithmetic right shift of an `int64_t` (gcc semantics: floor division by `2^k`). -/
def sra64 (x : Int) (k : Nat) : Int := Int.fdiv x (2 ^ k)

/-! The `BITSMASK(high, low)` / `BITMASK(bit)` preprocessor macros of
`riscv64.c`: `(__UINT64_MAX__ << (high + 1)) ^ (__UINT64_MAX__ << low)`,
computed on `uint64_t` (shifts wrap modulo `2^64`). -/

/-- The `BITSMASK(high, low)` macro of `riscv64.c`. -/
def bitsmask (high low : Nat) : Nat :=
  (((2 ^ 64 - 1) <<< (high + 1)) % 2 ^ 64) ^^^ (((2 ^ 64 - 1) <<< low) % 2 ^ 64)

/-- The `BITMASK(bit)` macro of `riscv64.c`. -/
def bitmask (bit : Nat) : Nat := bitsmask bit bit

/-- The `INSTR_SIGN` field mask (bit 31). -/
def INSTR_SIGN : Nat := bitmask 31

/-- The `INSTR_FUNCT7` field mask (bits 31:25). -/
def INSTR_FUNCT7 : Nat := bitsmask 31 25

/-- The `INSTR_RS2` field mask (bits 24:20). -/
def INSTR_RS2 : Nat := bitsmask 24 20

/-- The `INSTR_RS1` field mask (bits 19:15). -/
def INSTR_RS1 : Nat := bitsmask 19 15

/-- The `INSTR_FUNCT3` field mask (bits 14:12). -/
def INSTR_FUNCT3 : Nat := bitsmask 14 12

/-- The `INSTR_RD` field mask (bits 11:7). -/
def INSTR_RD : Nat := bitsmask 11 7

/-- The `INSTR_OPCODE` field mask (bits 6:0). -/
def INSTR_OPCODE : Nat := bitsmask 6 0

/-- The `OPCODE(bits)` macro: `(0b<bits> & INSTR_OPCODE)`. -/
def OPCODEbits (b : Nat) : Nat := b &&& INSTR_OPCODE

/-- The `RD(bits)` macro: `((0b<bits> << 7) & INSTR_RD)`. -/
def RDbits (b : Nat) : Nat := (b <<< 7) &&& INSTR_RD

/-- The `FUNCT3(bits)` macro: `((0b<bits> << 12) & INSTR_FUNCT3)`. -/
def FUNCT3bits (b : Nat) : Nat := (b <<< 12) &&& INSTR_FUNCT3

/-- The `RS1(bits)` macro: `((0b<bits> << 15) & INSTR_RS1)`. -/
def RS1bits (b : Nat) : Nat := (b <<< 15) &&& INSTR_RS1

/-- The `RS2(bits)` macro: `((0b<bits> << 20) & INSTR_RS2)`. -/
def RS2bits (b : Nat) : Nat := (b <<< 20) &&& INSTR_RS2

/-- The `FUNCT7(bits)` macro: `((0b<bits> << 25) & INSTR_FUNCT7)`. -/
def FUNCT7bits (b : Nat) : Nat := (b <<< 25) &&& INSTR_FUNCT7

/-! Instruction decomposition functions of `riscv64.c`.  Each isolates a field
and casts the result to `byte` (hence the reduction modulo `2^8`, which is a
no-op for these 3/5/7-bit fields). -/

/-- The `mask_instr_opcode` function of `riscv64.c`. -/
def mask_instr_opcode (instruction : Nat) : Nat := (instruction &&& INSTR_OPCODE) % 2 ^ 8

/-- The `mask_instr_rd` function of `riscv64.c`. -/
def mask_instr_rd (instruction : Nat) : Nat := ((instruction &&& INSTR_RD) >>> 7) % 2 ^ 8

/-- The `mask_instr_funct3` function of `riscv64.c`. -/
def mask_instr_funct3 (instruction : Nat) : Nat := ((instruction &&& INSTR_FUNCT3) >>> 12) % 2 ^ 8

/-- The `mask_instr_rs1` function of `riscv64.c`. -/
def mask_instr_rs1 (instruction : Nat) : Nat := ((instruction &&& INSTR_RS1) >>> 15) % 2 ^ 8

/-- The `mask_instr_rs2` function of `riscv64.c`. -/
def mask_instr_rs2 (instruction : Nat) : Nat := ((instruction &&& INSTR_RS2) >>> 20) % 2 ^ 8

/-- The `mask_instr_funct7` function of `riscv64.c`. -/
def mask_instr_funct7 (instruction : Nat) : Nat := ((instruction &&& INSTR_FUNCT7) >>> 25) % 2 ^ 8

/-! Immediate decoders of `riscv64.c`.  The signed decoders cast the unsigned
field to `int64_t`, shift left and arithmetic-right by `64 - width`; the left
shift of the `int64_t` wraps modulo `2^64` (gcc two's-complement behaviour). -/

/-- The `unsigned_itype_imm` function of `riscv64.c`: bits 31:20. -/
def unsigned_itype_imm (instr : Nat) : Nat := (bitsmask 31 20 &&& instr) >>> 20

/-- The `itype_imm` function of `riscv64.c`: `((sdword) u << 52) >> 52`. -/
def itype_imm (instr : Nat) : Int := sra64 (tos64 (shl64 (unsigned_itype_imm instr) 52)) 52

/-- The `unsigned_stype_imm` function of `riscv64.c`. -/
def unsigned_stype_imm (instr : Nat) : Nat :=
  ((bitsmask 31 25 &&& instr) >>> 20) ||| ((bitsmask 11 7 &&& instr) >>> 7)

/-- The `stype_imm` function of `riscv64.c`: `((sdword) u << 52) >> 52`. -/
def stype_imm (instr : Nat) : Int := sra64 (tos64 (shl64 (unsigned_stype_imm instr) 52)) 52

/-- The `unsigned_btype_imm` function of `riscv64.c`. -/
def unsigned_btype_imm (instr : Nat) : Nat :=
  ((INSTR_SIGN &&& instr) >>> 19) |||
  ((bitsmask 30 25 &&& instr) >>> 20) |||
  ((bitsmask 11 8 &&& instr) >>> 7) |||
  shl64 (bitmask 7 &&& instr) 4

/-- The `btype_imm` function of `riscv64.c`: `((sdword) u << 51) >> 51`. -/
def btype_imm (instr : Nat) : Int := sra64 (tos64 (shl64 (unsigned_btype_imm instr) 51)) 51

/-- The `unsigned_utype_imm` function of `riscv64.c`: bits 31:12 in place. -/
def unsigned_utype_imm (instr : Nat) : Nat := bitsmask 31 12 &&& instr

/-- The `utype_imm` function of `riscv64.c`: a plain cast `(sdword) u`, with no
shift pair (unlike the other signed decoders). -/
def utype_imm (instr : Nat) : Int := tos64 (unsigned_utype_imm instr)

/-- The `unsigned_jtype_imm` function of `riscv64.c`. -/
def unsigned_jtype_imm (instr : Nat) : Nat :=
  ((INSTR_SIGN &&& instr) >>> 11) |||
  ((bitsmask 30 21 &&& instr) >>> 20) |||
  ((bitmask 20 &&& instr) >>> 9) |||
  (bitsmask 19 12 &&& instr)

/-- The `jtype_imm` function of `riscv64.c`: `((sdword) u << 43) >> 43`. -/
def jtype_imm (instr : Nat) : Int := sra64 (tos64 (shl64 (unsigned_jtype_imm instr) 43)) 43

/-- The `RV64I_EBREAK` encoding: opcode `1110011`, rd = rs1 = funct3 = funct7 = 0,
rs2 = 1 (value `0x00100073`). -/
def RV64I_EBREAK : Nat :=
  FUNCT7bits 0 ||| RS2bits 1 ||| RS1bits 0 ||| FUNCT3bits 0 ||| RDbits 0 ||| OPCODEbits 0b1110011

/-- The `rsk_stat_t` statistics block of `rskapi.h`. -/
structure Stats where
  instructions : Nat
  loads : Nat
  stores : Nat
  load_misses : Nat
  store_misses : Nat
deriving DecidableEq

/-- The host memory-load services consumed by the core (`rsk_host_services_t`).
The store services, trace sink, log sink and panic sink act purely by side
effect; the model records stores and panics in the CPU state instead. -/
structure Host where
  mem_load_dword : Nat → Nat
  mem_load_word : Nat → Nat

/-- The `riscv64_cpu` struct of `riscv64.c`.  The instruction registry is
passed to `cpu_execute` separately (it is built once at init and read-only
thereafter); `panics` counts invocations of the host `panic` service and
`storeEvents` records the `(width, address, value)` calls made to the host
store services, so that side effects on the host are observable. -/
structure Cpu where
  is_running : Nat
  config : Nat
  host : Host
  stats : Stats
  pc : Nat
  x : Nat → Nat
  panics : Nat
  storeEvents : List (Nat × Nat × Nat)

/-- The `cpu_get_pc` function of `riscv64.c`. -/
def cpu_get_pc (cpu : Cpu) : Nat := cpu.pc

/-- The `cpu_set_pc` function of `riscv64.c`. -/
def cpu_set_pc (cpu : Cpu) (address : Nat) : Cpu := { cpu with pc := address }

/-- The `cpu_read_register` function of `riscv64.c`: index out of range
(`index >= 32`; the `byte` index is never negative) panics and returns 0,
index 0 reads as 0, any other index reads the stored array entry.  The panic
side effect of the out-of-range branch is a host call that returns no value
and touches no CPU state; it is not recorded here because the read itself is
value-only. -/
def cpu_read_register (cpu : Cpu) (index : Nat) : Nat :=
  if 32 ≤ index then 0
  else if index = 0 then 0
  else cpu.x index

/-- The `cpu_write_register` function of `riscv64.c`: index out of range
panics (recorded in `panics`) and stores nothing, index 0 is silently
ignored, any other index stores the value. -/
def cpu_write_register (cpu : Cpu) (index : Nat) (value : Nat) : Cpu :=
  if 32 ≤ index then { cpu with panics := cpu.panics + 1 }
  else if index = 0 then cpu
  else { cpu with x := Function.update cpu.x index value }

/-- The `rsk_signal_t` enumeration. -/
inductive RskSignal where
  | rs_halt
deriving DecidableEq

/-- The `cpu_process_signal` function of `riscv64.c`: a halt signal clears the
running flag. -/
def cpu_process_signal (cpu : Cpu) (signal : RskSignal) : Cpu :=
  match signal with
  | .rs_halt => { cpu with is_running := 0 }

/-! Executor bodies from `rv64i_instr.h` / `rv64m_instr.h` as compiled into
`riscv64.c` (the `z_exec_<name>` functions produced by `EXEC_DEF`).  Each takes
the instruction word and the CPU, and returns the new CPU together with the
`updated_pc` flag (`SET_PC` sets the flag; otherwise it stays `false`, the
value `cpu_execute` initialises it to).  Known slips of the source are
modelled exactly as written and flagged in comments. -/

/-- The `z_exec_lui` executor: `WRITE_REG(rd, utype_imm(instr))`. -/
def z_exec_lui (instr : Nat) (cpu : Cpu) : Cpu × Bool :=
  (cpu_write_register cpu (mask_instr_rd instr) (u64ofInt (utype_imm instr)), false)

/-- The `z_exec_addi` executor: `WRITE_REG(rd, READ_REG(rs1) + itype_imm(instr))`. -/
def z_exec_addi (instr : Nat) (cpu : Cpu) : Cpu × Bool :=
  (cpu_write_register cpu (mask_instr_rd instr)
    (u64ofInt ((cpu_read_register cpu (mask_instr_rs1 instr) : Int) + itype_imm instr)), false)

/-- The `z_exec_xori` executor: `READ_REG(rs1) ^ itype_imm(instr)` (the signed
immediate is converted to `uint64_t` by the usual arithmetic conversions). -/
def z_exec_xori (instr : Nat) (cpu : Cpu) : Cpu × Bool :=
  (cpu_write_register cpu (mask_instr_rd instr)
    (cpu_read_register cpu (mask_instr_rs1 instr) ^^^ u64ofInt (itype_imm instr)), false)

/-- The `z_exec_ori` executor: `READ_REG(rs1) | itype_imm(instr)`. -/
def z_exec_ori (instr : Nat) (cpu : Cpu) : Cpu × Bool :=
  (cpu_write_register cpu (mask_instr_rd instr)
    (cpu_read_register cpu (mask_instr_rs1 instr) ||| u64ofInt (itype_imm instr)), false)

/-- The `z_exec_andi` executor: `READ_REG(rs1) & itype_imm(instr)`. -/
def z_exec_andi (instr : Nat) (cpu : Cpu) : Cpu × Bool :=
  (cpu_write_register cpu (mask_instr_rd instr)
    (cpu_read_register cpu (mask_instr_rs1 instr) &&& u64ofInt (itype_imm instr)), false)

/-- The `z_exec_slli` executor as written in `rv64i_instr.h`:
`READ_REG(rs1) >> itype_imm(instr)` — a right shift by the sign-extended
I-immediate (for encodings that reach this executor the immediate is the
shamt, non-negative and below 64). -/
def z_exec_slli (instr : Nat) (cpu : Cpu) : Cpu × Bool :=
  (cpu_write_register cpu (mask_instr_rd instr)
    (cpu_read_register cpu (mask_instr_rs1 instr) >>> (itype_imm instr).toNat), false)

/-- The `z_exec_srli` executor as written in `rv64i_instr.h`:
`imm = (BITSMASK(25, 20) & instr) >> 20; READ_REG(rs1) << imm` — a left shift. -/
def z_exec_srli (instr : Nat) (cpu : Cpu) : Cpu × Bool :=
  (cpu_write_register cpu (mask_instr_rd instr)
    (shl64 (cpu_read_register cpu (mask_instr_rs1 instr)) ((bitsmask 25 20 &&& instr) >>> 20)), false)

/-- The `z_exec_srai` executor: `(sdword) READ_REG(rs1) >> imm` with the
6-bit shamt from bits 25:20. -/
def z_exec_srai (instr : Nat) (cpu : Cpu) : Cpu × Bool :=
  (cpu_write_register cpu (mask_instr_rd instr)
    (u64ofInt (sra64 (tos64 (cpu_read_register cpu (mask_instr_rs1 instr)))
      ((bitsmask 25 20 &&& instr) >>> 20))), false)

/-- The `z_exec_add` executor: `READ_REG(rs1) + READ_REG(rs2)`. -/
def z_exec_add (instr : Nat) (cpu : Cpu) : Cpu × Bool :=
  (cpu_write_register cpu (mask_instr_rd instr)
    (u64 (cpu_read_register cpu (mask_instr_rs1 instr) +
          cpu_read_register cpu (mask_instr_rs2 instr))), false)

/-- The `z_exec_sub` executor: `READ_REG(rs1) - READ_REG(rs2)` (wrapping). -/
def z_exec_sub (instr : Nat) (cpu : Cpu) : Cpu × Bool :=
  (cpu_write_register cpu (mask_instr_rd instr)
    (u64ofInt ((cpu_read_register cpu (mask_instr_rs1 instr) : Int) -
               cpu_read_register cpu (mask_instr_rs2 instr))), false)

/-- The `z_exec_sll` executor: `READ_REG(rs1) << READ_REG(rs2)` (defined in the
source but not linked from the registry, whose `sll` entry links `z_exec_sub`). -/
def z_exec_sll (instr : Nat) (cpu : Cpu) : Cpu × Bool :=
  (cpu_write_register cpu (mask_instr_rd instr)
    (shl64 (cpu_read_register cpu (mask_instr_rs1 instr))
           (cpu_read_register cpu (mask_instr_rs2 instr))), false)

/-- The `z_exec_srl` executor: `READ_REG(rs1) >> READ_REG(rs2)`. -/
def z_exec_srl (instr : Nat) (cpu : Cpu) : Cpu × Bool :=
  (cpu_write_register cpu (mask_instr_rd instr)
    (cpu_read_register cpu (mask_instr_rs1 instr) >>>
     cpu_read_register cpu (mask_instr_rs2 instr)), false)

/-- The `z_exec_sra` executor as written: `READ_REG(rs1) >> (sdword) READ_REG(rs2)`;
the left operand stays `uint64_t`, so the shift is logical. -/
def z_exec_sra (instr : Nat) (cpu : Cpu) : Cpu × Bool :=
  (cpu_write_register cpu (mask_instr_rd instr)
    (cpu_read_register cpu (mask_instr_rs1 instr) >>>
     cpu_read_register cpu (mask_instr_rs2 instr)), false)

/-- The `z_exec_ebreak` executor: an empty body (the loop handles `ebreak`
through the fetch-time sentinel check instead). -/
def z_exec_ebreak (_instr : Nat) (cpu : Cpu) : Cpu × Bool := (cpu, false)

/-- The `z_exec_lw` executor as written in `rv64i_instr.h`:
`WRITE_REG(rd, READ_REG(rs1) + itype_imm(instr))` — it writes the effective
address itself and performs no memory access. -/
def z_exec_lw (instr : Nat) (cpu : Cpu) : Cpu × Bool :=
  (cpu_write_register cpu (mask_instr_rd instr)
    (u64ofInt ((cpu_read_register cpu (mask_instr_rs1 instr) : Int) + itype_imm instr)), false)

/-- The `z_exec_sw` executor: `STORE_WORD(READ_REG(rs1) + stype_imm(instr), READ_REG(rs2))`;
the value is truncated to `word` by the store service's parameter type. -/
def z_exec_sw (instr : Nat) (cpu : Cpu) : Cpu × Bool :=
  ({ cpu with storeEvents :=
      (4, u64ofInt ((cpu_read_register cpu (mask_instr_rs1 instr) : Int) + stype_imm instr),
       cpu_read_register cpu (mask_instr_rs2 instr) % 2 ^ 32) :: cpu.storeEvents }, false)

/-- The `z_exec_jal` executor: `WRITE_REG(rd, GET_PC + 4); SET_PC(GET_PC + jtype_imm(instr))`. -/
def z_exec_jal (instr : Nat) (cpu : Cpu) : Cpu × Bool :=
  let c1 := cpu_write_register cpu (mask_instr_rd instr) (u64 (cpu_get_pc cpu + 4))
  (cpu_set_pc c1 (u64ofInt ((cpu_get_pc c1 : Int) + jtype_imm instr)), true)

/-- The `z_exec_jalr` executor: `t = GET_PC; SET_PC((READ_REG(rs1) + itype_imm(instr)) & ~1);
WRITE_REG(rd, t)` — note that `t`, the pre-jump PC, is written to rd without `+ 4`. -/
def z_exec_jalr (instr : Nat) (cpu : Cpu) : Cpu × Bool :=
  let t := cpu_get_pc cpu
  let c1 := cpu_set_pc cpu
    (u64ofInt ((cpu_read_register cpu (mask_instr_rs1 instr) : Int) + itype_imm instr) &&&
     (2 ^ 64 - 2))
  (cpu_write_register c1 (mask_instr_rd instr) t, true)

/-- The `z_exec_beq` executor: branch when `READ_REG(rs1) == READ_REG(rs2)`. -/
def z_exec_beq (instr : Nat) (cpu : Cpu) : Cpu × Bool :=
  if cpu_read_register cpu (mask_instr_rs1 instr) =
     cpu_read_register cpu (mask_instr_rs2 instr) then
    (cpu_set_pc cpu (u64ofInt ((cpu_get_pc cpu : Int) + btype_imm instr)), true)
  else (cpu, false)

/-- The `z_exec_bne` executor: branch when `READ_REG(rs1) != READ_REG(rs2)`. -/
def z_exec_bne (instr : Nat) (cpu : Cpu) : Cpu × Bool :=
  if cpu_read_register cpu (mask_instr_rs1 instr) ≠
     cpu_read_register cpu (mask_instr_rs2 instr) then
    (cpu_set_pc cpu (u64ofInt ((cpu_get_pc cpu : Int) + btype_imm instr)), true)
  else (cpu, false)

/-- The `z_exec_blt` executor as written:
`READ_REG((sdword) rs1) < (sdword) READ_REG(rs2)`.  The misplaced cast leaves
the left operand a `dword`, so the usual arithmetic conversions turn this into
an unsigned comparison of the two register values. -/
def z_exec_blt (instr : Nat) (cpu : Cpu) : Cpu × Bool :=
  if cpu_read_register cpu (mask_instr_rs1 instr) <
     cpu_read_register cpu (mask_instr_rs2 instr) then
    (cpu_set_pc cpu (u64ofInt ((cpu_get_pc cpu : Int) + btype_imm instr)), true)
  else (cpu, false)

/-- The `z_exec_bge` executor as written:
`READ_REG((sdword) rs1) >= (sdword) READ_REG(rs2)` — unsigned for the same
reason as `z_exec_blt`. -/
def z_exec_bge (instr : Nat) (cpu : Cpu) : Cpu × Bool :=
  if cpu_read_register cpu (mask_instr_rs2 instr) ≤
     cpu_read_register cpu (mask_instr_rs1 instr) then
    (cpu_set_pc cpu (u64ofInt ((cpu_get_pc cpu : Int) + btype_imm instr)), true)
  else (cpu, false)

/-- The `z_exec_bltu` executor as written:
`READ_REG((mask_instr_rs1(instr)) < READ_REG(mask_instr_rs2(instr)))` — the
misplaced parenthesis compares the rs1 field index with the rs2 register value
and then reads the register named by that 0/1 result; the branch is taken when
that register is nonzero. -/
def z_exec_bltu (instr : Nat) (cpu : Cpu) : Cpu × Bool :=
  if cpu_read_register cpu
       (if mask_instr_rs1 instr < cpu_read_register cpu (mask_instr_rs2 instr) then 1 else 0)
     ≠ 0 then
    (cpu_set_pc cpu (u64ofInt ((cpu_get_pc cpu : Int) + btype_imm instr)), true)
  else (cpu, false)

/-- The `z_exec_bgeu` executor: branch when `READ_REG(rs1) >= READ_REG(rs2)`
(unsigned, as intended). -/
def z_exec_bgeu (instr : Nat) (cpu : Cpu) : Cpu × Bool :=
  if cpu_read_register cpu (mask_instr_rs2 instr) ≤
     cpu_read_register cpu (mask_instr_rs1 instr) then
    (cpu_set_pc cpu (u64ofInt ((cpu_get_pc cpu : Int) + btype_imm instr)), true)
  else (cpu, false)

/-- The `z_exec_addiw` executor:
`(((sdword) READ_REG(rs1) + itype_imm(instr)) << 32) >> 32`. -/
def z_exec_addiw (instr : Nat) (cpu : Cpu) : Cpu × Bool :=
  (cpu_write_register cpu (mask_instr_rd instr)
    (u64ofInt (sra64 (tos64 (shl64 (u64ofInt
      (tos64 (cpu_read_register cpu (mask_instr_rs1 instr)) + itype_imm instr)) 32)) 32)), false)

/-- The `z_exec_ld` executor as written:
`WRITE_REG(rd, LOAD_DWORD(READ_REG(rs1_index + itype_imm(instr))))` — the
misplaced parenthesis adds the immediate to the rs1 field index (truncated to
`byte` by the parameter type) and uses the register so named as the load
address. -/
def z_exec_ld (instr : Nat) (cpu : Cpu) : Cpu × Bool :=
  (cpu_write_register cpu (mask_instr_rd instr)
    (u64 (cpu.host.mem_load_dword
      (cpu_read_register cpu (u8ofInt ((mask_instr_rs1 instr : Int) + itype_imm instr))))), false)

/-- The `z_exec_sd` executor: `STORE_DWORD(READ_REG(rs1) + stype_imm(instr), READ_REG(rs2))`. -/
def z_exec_sd (instr : Nat) (cpu : Cpu) : Cpu × Bool :=
  ({ cpu with storeEvents :=
      (8, u64ofInt ((cpu_read_register cpu (mask_instr_rs1 instr) : Int) + stype_imm instr),
       cpu_read_register cpu (mask_instr_rs2 instr)) :: cpu.storeEvents }, false)

/-- The `z_exec_mul` executor of `rv64m_instr.h`:
`((sdword) READ_REG(rs1)) * ((sdword) READ_REG(rs2))`, truncated to `dword`. -/
def z_exec_mul (instr : Nat) (cpu : Cpu) : Cpu × Bool :=
  (cpu_write_register cpu (mask_instr_rd instr)
    (u64ofInt (tos64 (cpu_read_register cpu (mask_instr_rs1 instr)) *
               tos64 (cpu_read_register cpu (mask_instr_rs2 instr)))), false)

/-- The `riscv64_instruction_type` descriptor of `riscv64.c`.  The `name` and
`disassemble` fields are omitted: the claims under verification concern only
decoding and execution. -/
structure Descr where
  mask : Nat
  required_bits : Nat
  execute : Nat → Cpu → Cpu × Bool

/-- The `rv64i_instructions` descriptor array of `rv64i_instr.h`, in source
order.  The `xori` entry links `z_exec_addi` and the `sll` entry links
`z_exec_sub`, exactly as in the source; the `ld` entry's opcode field is
`0000000`, as in the source. -/
def rv64i_instructions : List Descr := [
  { mask := INSTR_OPCODE, required_bits := OPCODEbits 0b0110111, execute := z_exec_lui },
  { mask := INSTR_OPCODE ||| INSTR_FUNCT3,
    required_bits := OPCODEbits 0b0010011 ||| FUNCT3bits 0b000, execute := z_exec_addi },
  { mask := INSTR_OPCODE ||| INSTR_FUNCT3,
    required_bits := OPCODEbits 0b0010011 ||| FUNCT3bits 0b100, execute := z_exec_addi },
  { mask := INSTR_OPCODE ||| INSTR_FUNCT3,
    required_bits := OPCODEbits 0b0010011 ||| FUNCT3bits 0b110, execute := z_exec_ori },
  { mask := INSTR_OPCODE ||| INSTR_FUNCT3,
    required_bits := OPCODEbits 0b0010011 ||| FUNCT3bits 0b111, execute := z_exec_andi },
  { mask := INSTR_OPCODE ||| INSTR_FUNCT3 ||| bitsmask 31 26,
    required_bits := OPCODEbits 0b0010011 ||| FUNCT3bits 0b001 ||| FUNCT7bits 0b0000000,
    execute := z_exec_slli },
  { mask := INSTR_OPCODE ||| INSTR_FUNCT3 ||| bitsmask 31 26,
    required_bits := OPCODEbits 0b0010011 ||| FUNCT3bits 0b101 ||| FUNCT7bits 0b0000000,
    execute := z_exec_srli },
  { mask := INSTR_OPCODE ||| INSTR_FUNCT3 ||| bitsmask 31 26,
    required_bits := OPCODEbits 0b0010011 ||| FUNCT3bits 0b101 ||| FUNCT7bits 0b0100000,
    execute := z_exec_srai },
  { mask := INSTR_OPCODE ||| INSTR_FUNCT3 ||| INSTR_FUNCT7,
    required_bits := OPCODEbits 0b0110011 ||| FUNCT3bits 0b000 ||| FUNCT7bits 0b0000000,
    execute := z_exec_add },
  { mask := INSTR_OPCODE ||| INSTR_FUNCT3 ||| INSTR_FUNCT7,
    required_bits := OPCODEbits 0b0110011 ||| FUNCT3bits 0b000 ||| FUNCT7bits 0b0100000,
    execute := z_exec_sub },
  { mask := INSTR_OPCODE ||| INSTR_FUNCT3 ||| INSTR_FUNCT7,
    required_bits := OPCODEbits 0b0110011 ||| FUNCT3bits 0b001 ||| FUNCT7bits 0b0000000,
    execute := z_exec_sub },
  { mask := INSTR_OPCODE ||| INSTR_FUNCT3 ||| INSTR_FUNCT7,
    required_bits := OPCODEbits 0b0110011 ||| FUNCT3bits 0b101 ||| FUNCT7bits 0b0000000,
    execute := z_exec_srl },
  { mask := INSTR_OPCODE ||| INSTR_FUNCT3 ||| INSTR_FUNCT7,
    required_bits := OPCODEbits 0b0110011 ||| FUNCT3bits 0b101 ||| FUNCT7bits 0b0100000,
    execute := z_exec_sra },
  { mask := INSTR_OPCODE ||| INSTR_RD ||| INSTR_FUNCT3 ||| INSTR_RS1 ||| INSTR_RS2 ||| INSTR_FUNCT7,
    required_bits := OPCODEbits 0b1110011 ||| RDbits 0b00000 ||| FUNCT3bits 0b000 |||
                     RS1bits 0b00000 ||| RS2bits 0b00001 ||| FUNCT7bits 0b0000000,
    execute := z_exec_ebreak },
  { mask := INSTR_OPCODE ||| INSTR_FUNCT3,
    required_bits := OPCODEbits 0b0100011 ||| FUNCT3bits 0b010, execute := z_exec_sw },
  { mask := INSTR_OPCODE, required_bits := OPCODEbits 0b1101111, execute := z_exec_jal },
  { mask := INSTR_OPCODE ||| INSTR_FUNCT3,
    required_bits := OPCODEbits 0b1100111 ||| FUNCT3bits 0b000, execute := z_exec_jalr },
  { mask := INSTR_OPCODE ||| INSTR_FUNCT3,
    required_bits := OPCODEbits 0b1100011 ||| FUNCT3bits 0b000, execute := z_exec_beq },
  { mask := INSTR_OPCODE ||| INSTR_FUNCT3,
    required_bits := OPCODEbits 0b1100011 ||| FUNCT3bits 0b001, execute := z_exec_bne },
  { mask := INSTR_OPCODE ||| INSTR_FUNCT3,
    required_bits := OPCODEbits 0b1100011 ||| FUNCT3bits 0b100, execute := z_exec_blt },
  { mask := INSTR_OPCODE ||| INSTR_FUNCT3,
    required_bits := OPCODEbits 0b1100011 ||| FUNCT3bits 0b101, execute := z_exec_bge },
  { mask := INSTR_OPCODE ||| INSTR_FUNCT3,
    required_bits := OPCODEbits 0b1100011 ||| FUNCT3bits 0b110, execute := z_exec_bltu },
  { mask := INSTR_OPCODE ||| INSTR_FUNCT3,
    required_bits := OPCODEbits 0b1100011 ||| FUNCT3bits 0b111, execute := z_exec_bgeu },
  { mask := INSTR_OPCODE ||| INSTR_FUNCT3,
    required_bits := OPCODEbits 0b0011011 ||| FUNCT3bits 0b000, execute := z_exec_addiw },
  { mask := INSTR_OPCODE ||| INSTR_FUNCT3,
    required_bits := OPCODEbits 0b0000000 ||| FUNCT3bits 0b011, execute := z_exec_ld },
  { mask := INSTR_OPCODE ||| INSTR_FUNCT3,
    required_bits := OPCODEbits 0b0100011 ||| FUNCT3bits 0b011, execute := z_exec_sd }]

/-- The `rv64m_instructions` descriptor array of `rv64m_instr.h`. -/
def rv64m_instructions : List Descr := [
  { mask := INSTR_OPCODE ||| INSTR_FUNCT3 ||| INSTR_FUNCT7,
    required_bits := OPCODEbits 0b0110011 ||| FUNCT3bits 0b000 ||| FUNCT7bits 0b0000001,
    execute := z_exec_mul }]

/-- The registry as built by `cpu_init`: RV64I appended first, then RV64M. -/
def instruction_set : List Descr := rv64i_instructions ++ rv64m_instructions

/-- The `registry_search` function of `riscv64.c`: linear scan returning the
first descriptor with `(itype->mask & instr) == itype->required_bits`, or none. -/
def registry_search (registry : List Descr) (instr : Nat) : Option Descr :=
  registry.find? fun itype => itype.mask &&& instr == itype.required_bits

/-- The `cpu_execute` function of `riscv64.c`: set the running flag, fetch at
PC through the host dword-load service, stop on the `ebreak` sentinel
(running cleared, return 0), panic and stop on a registry miss (running
cleared, return 0), otherwise dispatch the matched executor and advance PC by
4 unless the executor set the PC-written flag; return 1. -/
def cpu_execute (registry : List Descr) (cpu0 : Cpu) : Nat × Cpu :=
  let cpu := { cpu0 with is_running := 1 }
  let instr := cpu.host.mem_load_dword cpu.pc
  if instr = RV64I_EBREAK then
    (0, { cpu with is_running := 0 })
  else
    match registry_search registry instr with
    | none => (0, { cpu with panics := cpu.panics + 1, is_running := 0 })
    | some itype =>
      let out := itype.execute instr cpu
      let cpu2 := if out.2 then out.1 else { out.1 with pc := u64 (out.1.pc + 4) }
      (1, cpu2)

/-- The `rsk_cpu_run` function of the kernel API facade (`riscv64.h` /
`rsk.c`): the body is a TODO mockup that adds `cycles` to the instruction
counter (an `unsigned int`, wrapping modulo `2^32`) and returns `cycles`,
executing nothing. -/
def rsk_cpu_run (cycles : Int) (cpu : Cpu) : Int × Cpu :=
  (cycles, { cpu with stats :=
    { cpu.stats with instructions := u32ofInt ((cpu.stats.instructions : Int) + cycles) } })

/-! Helper lemmas about the register file, the PC and machine-integer bit
operations, shared by the claim theorems below. -/

/-- Writing a register never changes the running flag. -/
@[simp] lemma cpu_write_register_is_running (cpu : Cpu) (i v : Nat) :
    (cpu_write_register cpu i v).is_running = cpu.is_running := by
  unfold cpu_write_register
  split
  · rfl
  · split <;> rfl

/-- Writing a register never changes the statistics block. -/
@[simp] lemma cpu_write_register_stats (cpu : Cpu) (i v : Nat) :
    (cpu_write_register cpu i v).stats = cpu.stats := by
  unfold cpu_write_register
  split
  · rfl
  · split <;> rfl

/-- Writing a register never changes the PC. -/
@[simp] lemma cpu_write_register_pc (cpu : Cpu) (i v : Nat) :
    (cpu_write_register cpu i v).pc = cpu.pc := by
  unfold cpu_write_register
  split
  · rfl
  · split <;> rfl

/-- Setting the PC never changes the running flag. -/
@[simp] lemma cpu_set_pc_is_running (cpu : Cpu) (a : Nat) :
    (cpu_set_pc cpu a).is_running = cpu.is_running := rfl

/-- Setting the PC never changes the statistics block. -/
@[simp] lemma cpu_set_pc_stats (cpu : Cpu) (a : Nat) :
    (cpu_set_pc cpu a).stats = cpu.stats := rfl

/-- An in-range, nonzero register write stores the value at that index. -/
lemma cpu_write_register_read_back (cpu : Cpu) (i v : Nat) (h0 : i ≠ 0) (h32 : i < 32) :
    (cpu_write_register cpu i v).x i = v := by
  unfold cpu_write_register
  rw [if_neg (by omega), if_neg h0]
  exact Function.update_same i v cpu.x

/-- The rd field extractor always yields a register index below 32. -/
lemma mask_instr_rd_lt (instr : Nat) : mask_instr_rd instr < 32 := by
  unfold mask_instr_rd
  have h1 : instr &&& INSTR_RD ≤ INSTR_RD := Nat.and_le_right
  have h2 : INSTR_RD = 0xF80 := by decide
  have h3 : (instr &&& INSTR_RD) >>> 7 ≤ (0xF80 : Nat) >>> 7 := by
    rw [Nat.shiftRight_eq_div_pow, Nat.shiftRight_eq_div_pow]
    exact Nat.div_le_div_right (h2 ▸ h1)
  have h4 : (0xF80 : Nat) >>> 7 = 31 := by decide
  have h5 := Nat.mod_le ((instr &&& INSTR_RD) >>> 7) (2 ^ 8)
  omega

/-- Conversion of a signed value to `dword` always lands below `2^64`. -/
lemma u64ofInt_lt (x : Int) : u64ofInt x < 2 ^ 64 := by
  unfold u64ofInt
  have h1 := Int.emod_lt_of_pos x (by positivity : (0 : Int) < 2 ^ 64)
  have h2 := Int.emod_nonneg x (by positivity : (2 ^ 64 : Int) ≠ 0)
  omega

/-- A difference of powers of two as a shifted all-ones mask. -/
lemma two_pow_sub_two_pow (a b : Nat) (hba : b ≤ a) :
    2 ^ a - 2 ^ b = (2 ^ (a - b) - 1) <<< b := by
  rw [Nat.shiftLeft_eq, Nat.sub_mul, one_mul, ← pow_add]
  congr 2
  omega

/-- Masking with `2^a - 2^b` keeps exactly bits `a-1 .. b` of the operand. -/
lemma land_pow_sub_pow (x a b : Nat) (hba : b ≤ a) :
    x &&& (2 ^ a - 2 ^ b) = x / 2 ^ b % 2 ^ (a - b) * 2 ^ b := by
  apply Nat.eq_of_testBit_eq
  intro i
  rw [Nat.testBit_land, two_pow_sub_two_pow a b hba, Nat.testBit_shiftLeft,
    Nat.testBit_two_pow_sub_one,
    show x / 2 ^ b % 2 ^ (a - b) * 2 ^ b = (x >>> b % 2 ^ (a - b)) <<< b by
      rw [Nat.shiftLeft_eq, Nat.shiftRight_eq_div_pow],
    Nat.testBit_shiftLeft, Nat.testBit_mod_two_pow, Nat.testBit_shiftRight]
  rcases Nat.lt_or_ge i b with hib | hib
  · have : ¬ i ≥ b := by omega
    simp [this]
  · have hge : i ≥ b := hib
    have : b + (i - b) = i := by omega
    simp [hge, this, Bool.and_comm]

/-- Masking a `dword` with `~1` (that is, `2^64 - 2`) clears its lowest bit. -/
lemma land_clear_low_bit (n : Nat) (h : n < 2 ^ 64) :
    n &&& (2 ^ 64 - 2) = 2 * (n / 2) := by
  have h2 : (2 : Nat) ^ 64 - 2 = 2 ^ 64 - 2 ^ 1 := by norm_num
  rw [h2, land_pow_sub_pow n 64 1 (by norm_num)]
  have hlt : n / 2 ^ 1 < 2 ^ (64 - 1) := by omega
  rw [Nat.mod_eq_of_lt hlt]
  simp [pow_one, Nat.mul_comm]

/-- An executor preserves the running flag and the statistics block. -/
def preserves_core (e : Nat → Cpu → Cpu × Bool) : Prop :=
  ∀ (instr : Nat) (cpu : Cpu),
    (e instr cpu).1.is_running = cpu.is_running ∧ (e instr cpu).1.stats = cpu.stats

/-- Every executor reachable through the registry leaves the running flag and
the statistics block untouched: executor bodies only write registers, set the
PC or call host store services. -/
lemma instruction_set_preserves_core :
    ∀ d ∈ instruction_set, preserves_core d.execute := by
  intro d hd
  simp only [instruction_set, rv64i_instructions, rv64m_instructions, List.mem_append,
    List.mem_cons, List.not_mem_nil, or_false] at hd
  rcases hd with (rfl | rfl | rfl | rfl | rfl | rfl | rfl | rfl | rfl | rfl | rfl | rfl | rfl |
    rfl | rfl | rfl | rfl | rfl | rfl | rfl | rfl | rfl | rfl | rfl | rfl | rfl) | rfl <;>
  · intro instr cpu
    constructor <;>
      simp only [z_exec_lui, z_exec_addi, z_exec_ori, z_exec_andi, z_exec_slli, z_exec_srli,
        z_exec_srai, z_exec_add, z_exec_sub, z_exec_srl, z_exec_sra, z_exec_ebreak, z_exec_sw,
        z_exec_jal, z_exec_jalr, z_exec_beq, z_exec_bne, z_exec_blt, z_exec_bge, z_exec_bltu,
        z_exec_bgeu, z_exec_addiw, z_exec_ld, z_exec_sd, z_exec_mul,
        cpu_write_register_is_running, cpu_write_register_stats, cpu_set_pc_is_running,
        cpu_set_pc_stats] <;>
      first
        | rfl
        | (split_ifs <;> simp [cpu_set_pc])

/-! Concrete fixtures used by the claim theorems and their witnesses. -/

/-- A zeroed CPU (the state `cpu_init` produces) bound to the given host. -/
def zeroedCpu (h : Host) : Cpu :=
  { is_running := 0, config := 0, host := h, stats := ⟨0, 0, 0, 0, 0⟩, pc := 0,
    x := fun _ => 0, panics := 0, storeEvents := [] }

/-- A host whose memory holds `addi x1, x0, 1` (`0x00100093`) at address 0. -/
def hostA : Host :=
  { mem_load_dword := fun a => if a = 0 then 0x00100093 else 0, mem_load_word := fun _ => 0 }

/-- A zeroed CPU about to execute `addi x1, x0, 1`. -/
def cpuA : Cpu := zeroedCpu hostA

/-- A host whose memory holds `blt x1, x2, 8` (`0x0020C463`) at address 0. -/
def hostB : Host :=
  { mem_load_dword := fun a => if a = 0 then 0x0020C463 else 0, mem_load_word := fun _ => 0 }

/-- A CPU about to execute `blt x1, x2, 8` with `x1 = -1` (as a signed dword)
and `x2 = 1`. -/
def cpuB : Cpu :=
  { zeroedCpu hostB with x := fun i => if i = 1 then 2 ^ 64 - 1 else if i = 2 then 1 else 0 }

/-- A CPU with `pc = 0x100` and `x2 = 0x51`, about to run the `jalr x1, x2, 0`
executor (`0x000100E7`). -/
def cpuJ : Cpu :=
  { zeroedCpu hostB with pc := 0x100, x := fun i => if i = 2 then 0x51 else 0 }

/-- A host whose memory word at `0x1004` is `0x80000000` (a value whose 32-bit
sign bit is set). -/
def hostL : Host :=
  { mem_load_dword := fun _ => 0, mem_load_word := fun a => if a = 0x1004 then 0x80000000 else 0 }

/-- A CPU with `x2 = 0x1000`, about to run the `lw x1, 4(x2)` executor
(`0x00412083`). -/
def cpuL : Cpu := { zeroedCpu hostL with x := fun i => if i = 2 then 0x1000 else 0 }

/-- A host whose memory holds the `ebreak` encoding at every address. -/
def hostE : Host := { mem_load_dword := fun _ => RV64I_EBREAK, mem_load_word := fun _ => 0 }

/-- A zeroed CPU whose next fetch would be `ebreak`. -/
def cpuE : Cpu := zeroedCpu hostE

/-- A host whose memory holds the word 2 at every address: an instruction that
matches no descriptor of the registry. -/
def hostU : Host := { mem_load_dword := fun _ => 2, mem_load_word := fun _ => 0 }

/-- A zeroed CPU whose next fetch is unrecognizable. -/
def cpuU : Cpu := zeroedCpu hostU

/-- The `addi` descriptor (second entry of `rv64i_instructions`). -/
def addiDescr : Descr :=
  { mask := INSTR_OPCODE ||| INSTR_FUNCT3,
    required_bits := OPCODEbits 0b0010011 ||| FUNCT3bits 0b000, execute := z_exec_addi }

/-! Claim theorems. -/

/-- Claim C1: the claim states that `rsk_cpu_run` executes instructions from
the current PC until `ebreak` or a halt signal and returns the number of
instructions actually executed, counting the terminating `ebreak`.  The code
refutes this: with memory holding `ebreak` at the PC (so the claimed run would
execute exactly 1 instruction and return 1), `rsk_cpu_run 3` returns 3,
leaves the PC and the running flag untouched (nothing is executed), and bulk
adds the cycles argument to the instruction counter. -/
theorem rsk_cpu_run_mockup_behaviour :
    (rsk_cpu_run 3 cpuE).1 = 3 ∧
    (rsk_cpu_run 3 cpuE).2.pc = cpuE.pc ∧
    (rsk_cpu_run 3 cpuE).2.is_running = cpuE.is_running ∧
    (rsk_cpu_run 3 cpuE).2.stats.instructions = 3 ∧
    cpuE.host.mem_load_dword cpuE.pc = RV64I_EBREAK := by
  decide

/-- Claim C2: the claim states that every executed instruction increments
`stats.instructions` by exactly 1.  The code refutes this: `cpu_execute` on
`addi x1, x0, 1` dispatches a matched descriptor (returns 1 and performs the
register write), yet the instruction counter is unchanged — no path of
`cpu_execute` or of any executor touches it. -/
theorem cpu_execute_does_not_count_instructions :
    (cpu_execute instruction_set cpuA).1 = 1 ∧
    (cpu_execute instruction_set cpuA).2.x 1 = 1 ∧
    (cpu_execute instruction_set cpuA).2.stats.instructions = cpuA.stats.instructions := by
  decide

/-- A sequence of `cpu_write_register` calls, applied left to right. -/
def write_sequence (cpu : Cpu) (ws : List (Nat × Nat)) : Cpu :=
  ws.foldl (fun c p => cpu_write_register c p.1 p.2) cpu

/-- Claim C3: after any sequence of register writes (any indices, any values),
reading register 0 yields 0; a write to register 0 is silently ignored (the
state is returned unchanged, no panic); and a read of any index 1..31 returns
the stored register-array value. -/
theorem register_file_contract :
    (∀ (cpu : Cpu) (ws : List (Nat × Nat)),
      cpu_read_register (write_sequence cpu ws) 0 = 0) ∧
    (∀ (cpu : Cpu) (v : Nat), cpu_write_register cpu 0 v = cpu) ∧
    (∀ (cpu : Cpu) (i : Nat), 1 ≤ i → i < 32 → cpu_read_register cpu i = cpu.x i) := by
  refine ⟨fun cpu ws => rfl, fun cpu v => rfl, fun cpu i h1 h2 => ?_⟩
  unfold cpu_read_register
  rw [if_neg (by omega), if_neg (by omega)]

/-- Witness for C3 at concrete inputs: a write sequence that includes writes
to x0, to x5 and to the out-of-range index 99 still reads x0 as 0; a read of
x5 returns the stored value; a write to x0 is the identity. -/
theorem register_file_contract_witness :
    cpu_read_register (write_sequence cpuA [(0, 77), (5, 9), (99, 3)]) 0 = 0 ∧
    cpu_read_register (write_sequence cpuA [(5, 9)]) 5 = (write_sequence cpuA [(5, 9)]).x 5 ∧
    cpu_write_register cpuA 0 77 = cpuA :=
  ⟨register_file_contract.1 cpuA [(0, 77), (5, 9), (99, 3)],
   register_file_contract.2.2 (write_sequence cpuA [(5, 9)]) 5 (by decide) (by decide),
   register_file_contract.2.1 cpuA 77⟩

/-- Modelled from the spec's words (for comparison with `registry_search`):
the first descriptor in registry order for which `(instr & d.mask) ==
d.required_bits`, or none. -/
def registry_search_spec (registry : List Descr) (instr : Nat) : Option Descr :=
  (registry.filter fun d => instr &&& d.mask == d.required_bits).head?

/-- Claim C4: for every registry and instruction word, `registry_search`
returns the first descriptor (in registry order) whose masked bits equal its
required bits, and returns none exactly when no descriptor in the registry
satisfies that equation. -/
theorem registry_search_first_match (registry : List Descr) (instr : Nat) :
    registry_search registry instr = registry_search_spec registry instr ∧
    (registry_search registry instr = none ↔
      ∀ d ∈ registry, ¬ instr &&& d.mask = d.required_bits) := by
  have hpred : ∀ d : Descr,
      (d.mask &&& instr == d.required_bits) = (instr &&& d.mask == d.required_bits) := by
    intro d
    rw [Nat.land_comm]
  have heq : registry_search registry instr = registry_search_spec registry instr := by
    unfold registry_search registry_search_spec
    induction registry with
    | nil => rfl
    | cons head tail ih =>
      rcases hpb : (instr &&& head.mask == head.required_bits) with _ | _ <;>
        simp [List.find?_cons, List.filter_cons, hpred head, hpb, ih]
  refine ⟨heq, ?_⟩
  rw [heq]
  unfold registry_search_spec
  rw [List.head?_eq_none_iff, List.filter_eq_nil_iff]
  simp

/-- Witness for C4 at a concrete input: searching the simulator's registry for
the `addi x1, x0, 1` word agrees with the first-match specification. -/
theorem registry_search_first_match_witness :
    registry_search instruction_set 0x00100093 =
      registry_search_spec instruction_set 0x00100093 :=
  (registry_search_first_match instruction_set 0x00100093).1

/-- Claim C5, counterexample: the claim states that after the `jalr` executor
runs, rd (here x1, nonzero) holds the pre-jump PC plus 4.  On
`jalr x1, x2, 0` from `pc = 0x100` the executor stores `0x100`, the pre-jump
PC itself, not `0x104`. -/
theorem jalr_rd_counterexample :
    (z_exec_jalr 0x000100E7 cpuJ).1.x 1 = cpuJ.pc ∧
    ¬ (z_exec_jalr 0x000100E7 cpuJ).1.x 1 = u64 (cpuJ.pc + 4) := by
  decide

/-- Claim C5, amended: after the `jalr` executor runs, the PC equals the old
rs1 value plus the sign-extended I-immediate with the lowest bit cleared, the
PC-written flag is set, and rd (when rd is not x0) holds the pre-jump PC
(not the pre-jump PC plus 4). -/
theorem jalr_amended (cpu : Cpu) (instr : Nat) :
    (z_exec_jalr instr cpu).2 = true ∧
    (z_exec_jalr instr cpu).1.pc =
      2 * (u64ofInt ((cpu_read_register cpu (mask_instr_rs1 instr) : Int) + itype_imm instr) / 2) ∧
    (mask_instr_rd instr ≠ 0 →
      (z_exec_jalr instr cpu).1.x (mask_instr_rd instr) = cpu.pc) := by
  refine ⟨rfl, ?_, fun hrd => ?_⟩
  · show (cpu_write_register _ _ _).pc = _
    rw [cpu_write_register_pc]
    exact land_clear_low_bit _ (u64ofInt_lt _)
  · show (cpu_write_register _ _ _).x (mask_instr_rd instr) = cpu.pc
    exact cpu_write_register_read_back _ _ _ hrd (mask_instr_rd_lt instr)

/-- Witness for C5 (amended) at a concrete input: `jalr x1, x2, 0` from
`pc = 0x100` with `x2 = 0x51`. -/
theorem jalr_amended_witness :
    (z_exec_jalr 0x000100E7 cpuJ).2 = true ∧
    (z_exec_jalr 0x000100E7 cpuJ).1.pc =
      2 * (u64ofInt ((cpu_read_register cpuJ (mask_instr_rs1 0x000100E7) : Int) +
           itype_imm 0x000100E7) / 2) ∧
    (z_exec_jalr 0x000100E7 cpuJ).1.x (mask_instr_rd 0x000100E7) = cpuJ.pc :=
  ⟨(jalr_amended cpuJ 0x000100E7).1, (jalr_amended cpuJ 0x000100E7).2.1,
   (jalr_amended cpuJ 0x000100E7).2.2 (by decide)⟩

/-- Claim C6: the claim states that the `lw` executor writes to rd the
sign-extended 32-bit value loaded through the host word-load service from
`rs1 + I-imm`, and increments `stats.loads`.  The code refutes this: on
`lw x1, 4(x2)` with `x2 = 0x1000` and the memory word at `0x1004` equal to
`0x80000000`, the executor writes the effective address `0x1004` itself (it
never calls the load service, so x1 is neither the loaded value nor its sign
extension `0xFFFFFFFF80000000`), and `stats.loads` is unchanged. -/
theorem lw_executor_does_not_load :
    (z_exec_lw 0x00412083 cpuL).1.x 1 = 0x1004 ∧
    (z_exec_lw 0x00412083 cpuL).1.stats.loads = cpuL.stats.loads ∧
    cpuL.host.mem_load_word 0x1004 = 0x80000000 ∧
    ¬ (z_exec_lw 0x00412083 cpuL).1.x 1 = 0xFFFFFFFF80000000 := by
  decide

/-- Claim C7: the claim states that `blt` compares the two source registers as
signed 64-bit values.  The code refutes this: on `blt x1, x2, 8` with
`x1 = -1` (signed) and `x2 = 1`, the signed comparison holds, so per the claim
`cpu_execute` should set `pc` to `old pc + B-imm = 8`; instead the dispatched
executor compares the register values unsigned, the branch falls through, and
the PC advances to 4. -/
theorem blt_dispatch_unsigned_comparison :
    tos64 (cpuB.x 1) < tos64 (cpuB.x 2) ∧
    (cpu_execute instruction_set cpuB).1 = 1 ∧
    (cpu_execute instruction_set cpuB).2.pc = 4 ∧
    u64ofInt ((cpuB.pc : Int) + btype_imm 0x0020C463) = 8 := by
  decide

/-- Claim C8, counterexample: the claim states that the signed U-type decoder
sign-extends from bit 31, so on an instruction word with bit 31 set the result
interpreted as signed must be negative.  On `0x80000037` the decoder returns
`+2^31`, not a negative value. -/
theorem utype_imm_sign_extension_counterexample :
    utype_imm 0x80000037 = (2147483648 : Int) ∧ ¬ utype_imm 0x80000037 < 0 := by
  decide

/-- Claim C8, amended: for every 32-bit instruction word, the signed U-type
decoder returns a value whose bits 31:12 equal the instruction's bits 31:12
and whose low 12 bits are zero, but whose bits 63:32 are zero (the value is
non-negative and below `2^32`: it is not sign-extended from bit 31). -/
theorem utype_imm_zero_extended (instr : Nat) (h : instr < 2 ^ 32) :
    0 ≤ utype_imm instr ∧ utype_imm instr < 2 ^ 32 ∧
    (utype_imm instr).toNat % 2 ^ 12 = 0 ∧
    (utype_imm instr).toNat / 2 ^ 12 = instr / 2 ^ 12 := by
  have hmask : bitsmask 31 12 = 2 ^ 32 - 2 ^ 12 := by decide
  have hdivlt : instr / 2 ^ 12 < 2 ^ 20 := by omega
  have hval : unsigned_utype_imm instr = instr / 2 ^ 12 * 2 ^ 12 := by
    unfold unsigned_utype_imm
    rw [hmask, Nat.land_comm, land_pow_sub_pow instr 32 12 (by norm_num),
      show (32 - 12 : Nat) = 20 from rfl, Nat.mod_eq_of_lt hdivlt]
  have hlt : unsigned_utype_imm instr < 2 ^ 32 := by
    rw [hval]
    have := Nat.div_mul_le_self instr (2 ^ 12)
    omega
  have htos : utype_imm instr = (unsigned_utype_imm instr : Int) := by
    unfold utype_imm tos64
    rw [Nat.mod_eq_of_lt (lt_trans hlt (by norm_num))]
    rw [if_pos (by exact_mod_cast lt_trans hlt (by norm_num))]
  refine ⟨?_, ?_, ?_, ?_⟩
  · rw [htos]
    positivity
  · rw [htos]
    exact_mod_cast hlt
  · rw [htos, Int.toNat_natCast, hval]
    exact Nat.mul_mod_left _ _
  · rw [htos, Int.toNat_natCast, hval]
    exact Nat.mul_div_cancel _ (by norm_num)

/-- Witness for C8 (amended) at the concrete word `0x80000037`. -/
theorem utype_imm_zero_extended_witness :
    0 ≤ utype_imm 0x80000037 ∧ utype_imm 0x80000037 < 2 ^ 32 ∧
    (utype_imm 0x80000037).toNat % 2 ^ 12 = 0 ∧
    (utype_imm 0x80000037).toNat / 2 ^ 12 = 0x80000037 / 2 ^ 12 :=
  utype_imm_zero_extended 0x80000037 (by decide)

/-- Claim C9: when the fetched word is not the `ebreak` encoding and matches
no descriptor, `cpu_execute` invokes the host panic service (one panic is
recorded), clears the running flag, returns 0, and leaves the PC, all
registers and all statistics counters unchanged (the resulting state differs
from the input only in the running flag and the panic record). -/
theorem cpu_execute_unrecognized (registry : List Descr) (cpu : Cpu)
    (h1 : cpu.host.mem_load_dword cpu.pc ≠ RV64I_EBREAK)
    (h2 : registry_search registry (cpu.host.mem_load_dword cpu.pc) = none) :
    cpu_execute registry cpu =
      (0, { cpu with is_running := 0, panics := cpu.panics + 1 }) := by
  simp only [cpu_execute]
  rw [if_neg h1, h2]

/-- Witness for C9 at a concrete input: the word 2 is not `ebreak` and matches
no descriptor of the simulator's registry. -/
theorem cpu_execute_unrecognized_witness :
    cpu_execute instruction_set cpuU =
      (0, { cpuU with is_running := 0, panics := cpuU.panics + 1 }) :=
  cpu_execute_unrecognized instruction_set cpuU (by decide) rfl

/-- Claim C10: `cpu_execute` sets the running flag to 1 on entry, so a call
that dispatches a recognized, non-`ebreak` instruction returns with
running = 1 regardless of the flag's prior value (for example after a halt
signal); the `ebreak`-sentinel path and the unrecognized-instruction path are
the only ones that return with the flag at 0. -/
theorem cpu_execute_running_flag :
    (∀ (cpu : Cpu) (d : Descr),
      cpu.host.mem_load_dword cpu.pc ≠ RV64I_EBREAK →
      registry_search instruction_set (cpu.host.mem_load_dword cpu.pc) = some d →
      (cpu_execute instruction_set cpu).2.is_running = 1) ∧
    (∀ cpu : Cpu, cpu.host.mem_load_dword cpu.pc = RV64I_EBREAK →
      (cpu_execute instruction_set cpu).2.is_running = 0) ∧
    (∀ cpu : Cpu, cpu.host.mem_load_dword cpu.pc ≠ RV64I_EBREAK →
      registry_search instruction_set (cpu.host.mem_load_dword cpu.pc) = none →
      (cpu_execute instruction_set cpu).2.is_running = 0) := by
  refine ⟨fun cpu d h1 h2 => ?_, fun cpu h1 => ?_, fun cpu h1 h2 => ?_⟩
  · have hmem : d ∈ instruction_set := List.mem_of_find?_eq_some h2
    have hpres := (instruction_set_preserves_core d hmem)
      (cpu.host.mem_load_dword cpu.pc) { cpu with is_running := 1 }
    simp only [cpu_execute]
    rw [if_neg h1, h2]
    dsimp only
    split
    · exact hpres.1
    · exact hpres.1
  · simp only [cpu_execute]
    rw [if_pos h1]
  · simp only [cpu_execute]
    rw [if_neg h1, h2]

/-- Witness for C10 at a concrete input: a CPU halted by an `rs_halt` signal
still reports running = 1 after executing a recognized `addi`. -/
theorem cpu_execute_running_flag_witness :
    (cpu_execute instruction_set (cpu_process_signal cpuA RskSignal.rs_halt)).2.is_running = 1 :=
  cpu_execute_running_flag.1 (cpu_process_signal cpuA RskSignal.rs_halt) addiDescr
    (by decide) rfl

end RiscvSim
